import Mathlib

/-!
Verification development for `cities_weather.py`: a pipeline that selects the
most populated cities, queries current weather per city over HTTP, and filters
to cities reporting clear sky.

The embedding is shallow: the two input files become explicit lists of records,
the HTTP layer becomes a function from city id to a `Response`, exceptions of
the Python runtime become an `Except PyError` result, and values printed to the
console become an explicit list of diagnostics in the result.  Map rendering
(`plot_on_map`) is a pure side effect on a display and is not modelled; the
point geometry column is consumed only by the renderer and is likewise omitted.
-/

namespace CitiesWeather

/-- One element of the `weather` list of an OpenWeatherMap response body. -/
structure WeatherItem where
  main : String
  description : String
deriving DecidableEq, Repr

/-- The parsed JSON body of a response, as far as `cities_weather.py` reads it.
Each field is `Option`al: `none` models the key being absent from the JSON
object, so that reading it raises a `KeyError` as in Python.  `clouds_all`
stands for the nested access `resp_j['clouds']['all']`. -/
structure Json where
  weather : Option (List WeatherItem)
  clouds_all : Option Int
  dt : Option Int
deriving DecidableEq, Repr

/-- An HTTP response as seen by `requests.get`.  `json? = none` models a body
that is not valid JSON, in which case `response.json()` raises. -/
structure Response where
  status_code : Nat
  text : String
  json? : Option Json
deriving DecidableEq, Repr

/-- The Python exceptions the embedded code can raise. -/
inductive PyError where
  /-- `response.json()` raised because the body of the response for this city
  id is not valid JSON. -/
  | jsonDecodeError (city_id : Nat)
  /-- a dictionary was indexed with a key it does not contain. -/
  | keyError
  /-- `resp_j['weather'][0]` on an empty `weather` list. -/
  | indexError
  /-- `resp_j` read before any assignment (empty `id_list`). -/
  | nameError
deriving DecidableEq, Repr

/-- What one iteration of the loop in `get_weather` appends for one city id:
the values appended to `cloud_cov`, `weath_desc` and `weath_main` (with `none`
for `np.nan`), the diagnostic printed on failure, and the value the local
variable `resp_j` holds after the iteration. -/
structure Item where
  cc : Option Int
  wd : Option String
  wm : Option String
  diag : Option (Nat × Nat × String)
  resp_j : Json
deriving DecidableEq, Repr

/-- One iteration of the loop in `get_weather` (source lines 88-107).  The body
is parsed as JSON before the status code is inspected; on status 200 the code
reads `resp_j['weather'][0]['main']` twice (also for the description) and
`resp_j['clouds']['all']`; otherwise it prints a diagnostic and appends nan. -/
def process_city (http : Nat → Response) (city_id : Nat) : Except PyError Item :=
  match (http city_id).json? with
  | none => .error (.jsonDecodeError city_id)
  | some resp_j =>
    if (http city_id).status_code = 200 then
      match resp_j.weather with
      | none => .error .keyError
      | some [] => .error .indexError
      | some (w :: _) =>
        match resp_j.clouds_all with
        | none => .error .keyError
        | some ca => .ok ⟨some ca, some w.main, some w.main, none, resp_j⟩
    else
      .ok ⟨none, none, none,
           some (city_id, (http city_id).status_code, (http city_id).text), resp_j⟩

/-- The loop of `get_weather` over the whole id list, collecting one `Item`
per id; the first raised exception aborts the batch. -/
def get_weather_list (http : Nat → Response) : List Nat → Except PyError (List Item)
  | [] => .ok []
  | city_id :: ids =>
    match process_city http city_id with
    | .error e => .error e
    | .ok it =>
      match get_weather_list http ids with
      | .error e => .error e
      | .ok rest => .ok (it :: rest)

/-- The tuple returned by `get_weather`, together with the diagnostics printed
to the console along the way. -/
structure FetchResult where
  cloud_cov : List (Option Int)
  weath_desc : List (Option String)
  weath_main : List (Option String)
  dt : Int
  diagnostics : List (Nat × Nat × String)
deriving DecidableEq, Repr

/-- `get_weather(API_URL, id_list)` (source lines 70-109).  After the loop the
code returns `cloud_cov, weath_desc, weath_main, resp_j['dt']`: `resp_j` is the
parsed body of the last response processed (whatever its status), it is unbound
when `id_list` is empty, and `['dt']` raises when that body has no `dt` key. -/
def get_weather (http : Nat → Response) (id_list : List Nat) :
    Except PyError FetchResult :=
  match get_weather_list http id_list with
  | .error e => .error e
  | .ok items =>
    match (items.map Item.resp_j).getLast? with
    | none => .error .nameError
    | some resp_j =>
      match resp_j.dt with
      | none => .error .keyError
      | some d =>
        .ok ⟨items.map Item.cc, items.map Item.wd, items.map Item.wm, d,
             items.filterMap Item.diag⟩

/-- The value `get_weather` appends to `cloud_cov` for one response, on runs
where no exception is raised. -/
def item_cloud (r : Response) : Option Int :=
  if r.status_code = 200 then r.json?.bind Json.clouds_all else none

/-- The value `get_weather` appends to both `weath_main` and `weath_desc` for
one response, on runs where no exception is raised: both come from
`resp_j['weather'][0]['main']`. -/
def item_main (r : Response) : Option String :=
  if r.status_code = 200 then
    ((r.json?.bind Json.weather).bind List.head?).map WeatherItem.main
  else none

/-- The diagnostic `get_weather` prints for one response (source lines
103-104): city id, status code and body text, only on a non-200 status. -/
def item_diag (city_id : Nat) (r : Response) : Option (Nat × Nat × String) :=
  if r.status_code = 200 then none else some (city_id, r.status_code, r.text)

/-- One feature of `ne_10m_populated_places_simple.shp`, restricted to the
attributes the pipeline reads: `nameascii` (join key), `iso_a2` (country code)
and `pop_max` (population used for sorting).  The point geometry is consumed
only by the unmodelled renderer. -/
structure PlaceRecord where
  nameascii : String
  iso_a2 : String
  pop_max : Int
deriving DecidableEq, Repr

/-- One entry of `city.list.json`: provider city name, ISO-2 country code and
the provider's integer city id. -/
structure CityIDRecord where
  name : String
  country : String
  id : Nat
deriving DecidableEq, Repr

/-- One row of the dataframe produced by
`sorted_cities.merge(cities_id, how='inner', left_on='nameascii',
right_on='name')`: the columns of both sources side by side. -/
structure JoinedRow where
  nameascii : String
  iso_a2 : String
  pop_max : Int
  name : String
  country : String
  id : Nat
deriving DecidableEq, Repr

/-- Combine one place feature with one catalog entry into a joined row. -/
def join_row (p : PlaceRecord) (c : CityIDRecord) : JoinedRow :=
  ⟨p.nameascii, p.iso_a2, p.pop_max, c.name, c.country, c.id⟩

/-- The descending-population order used by
`cities_data.sort_values('pop_max', ascending=False)`. -/
def popGE (a b : PlaceRecord) : Prop := b.pop_max ≤ a.pop_max

instance : DecidableRel popGE := fun a b =>
  inferInstanceAs (Decidable (b.pop_max ≤ a.pop_max))

instance : IsTotal PlaceRecord popGE :=
  ⟨fun a b => (le_total b.pop_max a.pop_max).elim Or.inl Or.inr⟩

instance : IsTrans PlaceRecord popGE :=
  ⟨fun _ _ _ hab hbc => le_trans hbc hab⟩

/-- `sorted_cities` (source line 129): the place features sorted by `pop_max`
descending.  `pandas.sort_values` uses an unstable quicksort whose tie order
is unspecified; any sort w.r.t. `popGE` models it. -/
def sorted_cities (cities_data : List PlaceRecord) : List PlaceRecord :=
  cities_data.insertionSort popGE

/-- `fulldataset` before sorting is plugged in: pandas' inner merge preserves
the order of the left keys, and within one left row the order of the matching
right rows, which is exactly this nested loop. -/
def merge_inner : List PlaceRecord → List CityIDRecord → List JoinedRow
  | [], _ => []
  | p :: ps, cities_id =>
    (cities_id.filter (fun c => c.name = p.nameascii)).map (join_row p)
      ++ merge_inner ps cities_id

/-- `fulldataset` (source lines 132-133): inner join of the sorted places with
the catalog on `nameascii = name`. -/
def fulldataset (cities_data : List PlaceRecord) (cities_id : List CityIDRecord) :
    List JoinedRow :=
  merge_inner (sorted_cities cities_data) cities_id

/-- `full_dataset` (source line 137): keep only rows whose two country-code
columns agree exactly. -/
def full_dataset (cities_data : List PlaceRecord) (cities_id : List CityIDRecord) :
    List JoinedRow :=
  (fulldataset cities_data cities_id).filter (fun r => r.iso_a2 = r.country)

/-- `drop_duplicates(subset='nameascii', keep='first')`: keep each row whose
`nameascii` has not been seen on an earlier kept-or-dropped row.  `seen` is the
accumulator of keys already encountered. -/
def dedupFirst : List JoinedRow → List String → List JoinedRow
  | [], _ => []
  | r :: rs, seen =>
    if r.nameascii ∈ seen then dedupFirst rs seen
    else r :: dedupFirst rs (r.nameascii :: seen)

/-- `clear_dataset` (source lines 139-140): `full_dataset` with later rows of a
repeated `nameascii` dropped. -/
def clear_dataset (cities_data : List PlaceRecord) (cities_id : List CityIDRecord) :
    List JoinedRow :=
  dedupFirst (full_dataset cities_data cities_id) []

/-- `sel_dataset` before the weather columns are attached (source line 143):
`clear_dataset[0:selection]`. -/
def sel_rows (cities_data : List PlaceRecord) (cities_id : List CityIDRecord)
    (selection : Nat) : List JoinedRow :=
  (clear_dataset cities_data cities_id).take selection

/-- A pandas cell after `fillna('No data')`: columns become mixed-typed, an
integer cloud percentage or the string sentinel. -/
inductive Cell where
  | intVal : Int → Cell
  | strVal : String → Cell
deriving DecidableEq, Repr

/-- `fillna('No data')` on a string-or-nan column. -/
def fillna_str : Option String → String
  | none => "No data"
  | some s => s

/-- `fillna('No data')` on the numeric-or-nan `clouds` column: the substitution
is uniform across columns, so a missing percentage becomes a string. -/
def fillna_cell : Option Int → Cell
  | none => Cell.strVal "No data"
  | some n => Cell.intVal n

/-- One row of `sel_dataset` after the three weather columns are assigned
(source lines 158-160) and `fillna('No data', inplace=True)` ran (line 162). -/
structure SelRow where
  row : JoinedRow
  weather : String
  weather_description : String
  clouds : Cell
deriving DecidableEq, Repr

/-- Attach the weather columns positionally to the selected rows, applying the
sentinel substitution.  The three lists returned by `get_weather` have the
length of the id list, which is the length of the selection, so the positional
column assignment of pandas is total here. -/
def attach (sel : List JoinedRow) (cc : List (Option Int))
    (wd wm : List (Option String)) : List SelRow :=
  (sel.zip (cc.zip (wd.zip wm))).map
    (fun x => ⟨x.1, fillna_str x.2.2.2, fillna_str x.2.2.1, fillna_cell x.2.1⟩)

/-- `select_cities` up to and including the clear-sky filter (source lines
112-175), parametrised by the contents of the two input files and by the HTTP
layer, and keeping the rows of `final_dataset` together with the printed
diagnostics.  The two `plot_on_map` calls only display and are not modelled. -/
def select_cities_full (cities_data : List PlaceRecord)
    (cities_id : List CityIDRecord) (selection : Nat) (http : Nat → Response) :
    Except PyError (List SelRow × List (Nat × Nat × String)) :=
  let sel_dataset := sel_rows cities_data cities_id selection
  let id_list := sel_dataset.map JoinedRow.id
  match get_weather http id_list with
  | .error e => .error e
  | .ok res =>
    let rows := attach sel_dataset res.cloud_cov res.weath_desc res.weath_main
    let final_dataset := rows.filter (fun r => r.weather = "Clear")
    .ok (final_dataset, res.diagnostics)

/-- `select_cities(selection, appid)` as returned to the caller (source line
177): `final_dataset[['nameascii', 'clouds']]`, the clear-sky rows projected to
exactly the city-name and cloud-cover columns. -/
def select_cities (cities_data : List PlaceRecord)
    (cities_id : List CityIDRecord) (selection : Nat) (http : Nat → Response) :
    Except PyError (List (String × Cell)) :=
  match select_cities_full cities_data cities_id selection http with
  | .error e => .error e
  | .ok (final_dataset, _) =>
    .ok (final_dataset.map (fun r => (r.row.nameascii, r.clouds)))

/-! ### Helper lemmas about the weather client -/

lemma process_city_ok {http : Nat → Response} {city_id : Nat} {it : Item}
    (h : process_city http city_id = .ok it) :
    (http city_id).json? = some it.resp_j ∧
    it.cc = item_cloud (http city_id) ∧
    it.wd = item_main (http city_id) ∧
    it.wm = item_main (http city_id) ∧
    it.diag = item_diag city_id (http city_id) := by
  unfold process_city at h
  cases hj : (http city_id).json? with
  | none => rw [hj] at h; exact absurd h (by simp)
  | some resp_j =>
    rw [hj] at h
    dsimp only at h
    by_cases hs : (http city_id).status_code = 200
    · rw [if_pos hs] at h
      cases hw : resp_j.weather with
      | none => rw [hw] at h; exact absurd h (by simp)
      | some ws =>
        rw [hw] at h
        cases ws with
        | nil => exact absurd h (by simp)
        | cons w tl =>
          cases hc : resp_j.clouds_all with
          | none => rw [hc] at h; exact absurd h (by simp)
          | some ca =>
            rw [hc] at h
            cases h
            simp [item_cloud, item_main, item_diag, hj, hs, hw, hc]
    · rw [if_neg hs] at h
      cases h
      simp [item_cloud, item_main, item_diag, hj, hs]

lemma get_weather_list_cons_ok {http : Nat → Response} {city_id : Nat}
    {ids : List Nat} {items : List Item}
    (h : get_weather_list http (city_id :: ids) = .ok items) :
    ∃ it rest, process_city http city_id = .ok it ∧
      get_weather_list http ids = .ok rest ∧ items = it :: rest := by
  unfold get_weather_list at h
  cases hp : process_city http city_id with
  | error e => rw [hp] at h; exact absurd h (by simp)
  | ok it =>
    rw [hp] at h
    cases hr : get_weather_list http ids with
    | error e => rw [hr] at h; exact absurd h (by simp)
    | ok rest => rw [hr] at h; cases h; exact ⟨it, rest, rfl, rfl, rfl⟩

lemma get_weather_list_ok_maps {http : Nat → Response} :
    ∀ {ids : List Nat} {items : List Item},
    get_weather_list http ids = .ok items →
    items.map Item.cc = ids.map (fun i => item_cloud (http i)) ∧
    items.map Item.wd = ids.map (fun i => item_main (http i)) ∧
    items.map Item.wm = ids.map (fun i => item_main (http i)) ∧
    items.filterMap Item.diag = ids.filterMap (fun i => item_diag i (http i)) ∧
    items.map (fun it => some it.resp_j) = ids.map (fun i => (http i).json?)
  | [], items, h => by
    unfold get_weather_list at h
    cases h
    simp
  | city_id :: ids, items, h => by
    obtain ⟨it, rest, hp, hrest, hitems⟩ := get_weather_list_cons_ok h
    obtain ⟨hj, hcc, hwd, hwm, hdiag⟩ := process_city_ok hp
    obtain ⟨mcc, mwd, mwm, mdiag, mjson⟩ := get_weather_list_ok_maps hrest
    subst hitems
    refine ⟨by simp [hcc, mcc], by simp [hwd, mwd], by simp [hwm, mwm], ?_,
      by simp [hj, mjson]⟩
    rw [List.filterMap_cons, List.filterMap_cons, hdiag, mdiag]

lemma get_weather_ok_elim {http : Nat → Response} {ids : List Nat}
    {res : FetchResult} (h : get_weather http ids = .ok res) :
    ∃ items, get_weather_list http ids = .ok items ∧
      res.cloud_cov = items.map Item.cc ∧
      res.weath_desc = items.map Item.wd ∧
      res.weath_main = items.map Item.wm ∧
      res.diagnostics = items.filterMap Item.diag ∧
      ∃ j, (items.map Item.resp_j).getLast? = some j ∧ j.dt = some res.dt := by
  unfold get_weather at h
  cases hl : get_weather_list http ids with
  | error e => rw [hl] at h; exact absurd h (by simp)
  | ok items =>
    rw [hl] at h
    dsimp only at h
    cases hg : (items.map Item.resp_j).getLast? with
    | none => rw [hg] at h; exact absurd h (by simp)
    | some j =>
      rw [hg] at h
      dsimp only at h
      cases hd : j.dt with
      | none => rw [hd] at h; exact absurd h (by simp)
      | some d =>
        rw [hd] at h
        cases h
        exact ⟨items, rfl, rfl, rfl, rfl, rfl, j, hg, hd⟩

lemma get_weather_ok_maps {http : Nat → Response} {ids : List Nat}
    {res : FetchResult} (h : get_weather http ids = .ok res) :
    res.cloud_cov = ids.map (fun i => item_cloud (http i)) ∧
    res.weath_desc = ids.map (fun i => item_main (http i)) ∧
    res.weath_main = ids.map (fun i => item_main (http i)) ∧
    res.diagnostics = ids.filterMap (fun i => item_diag i (http i)) := by
  obtain ⟨items, hl, hcc, hwd, hwm, hdiag, -⟩ := get_weather_ok_elim h
  obtain ⟨mcc, mwd, mwm, mdiag, -⟩ := get_weather_list_ok_maps hl
  exact ⟨hcc.trans mcc, hwd.trans mwd, hwm.trans mwm, hdiag.trans mdiag⟩

/-! ### Helper lemmas about the city selector -/

lemma mem_merge_inner {l : List PlaceRecord} {ci : List CityIDRecord}
    {r : JoinedRow} (h : r ∈ merge_inner l ci) :
    ∃ p ∈ l, ∃ c ∈ ci, r = join_row p c := by
  induction l with
  | nil => simp [merge_inner] at h
  | cons p ps ih =>
    rw [merge_inner] at h
    rcases List.mem_append.mp h with h1 | h2
    · obtain ⟨c, hc, hr⟩ := List.mem_map.mp h1
      exact ⟨p, List.mem_cons_self _ _, c, List.mem_of_mem_filter hc, hr.symm⟩
    · obtain ⟨p', hp', c, hc, hr⟩ := ih h2
      exact ⟨p', List.mem_cons_of_mem _ hp', c, hc, hr⟩

lemma merge_inner_pairwise {l : List PlaceRecord} {ci : List CityIDRecord}
    (h : l.Pairwise popGE) :
    (merge_inner l ci).Pairwise (fun a b => b.pop_max ≤ a.pop_max) := by
  induction l with
  | nil => simp [merge_inner]
  | cons p ps ih =>
    rw [merge_inner, List.pairwise_append]
    refine ⟨List.pairwise_of_forall_mem_list ?_, ih h.of_cons, ?_⟩
    · intro a ha b hb
      obtain ⟨c, -, hc⟩ := List.mem_map.mp ha
      obtain ⟨c', -, hc'⟩ := List.mem_map.mp hb
      rw [← hc, ← hc']
      exact le_refl p.pop_max
    · intro a ha b hb
      obtain ⟨c, -, hc⟩ := List.mem_map.mp ha
      obtain ⟨p', hp', c', -, hb'⟩ := mem_merge_inner hb
      have hpp : popGE p p' := (List.pairwise_cons.mp h).1 p' hp'
      rw [← hc, hb']
      exact hpp

lemma full_dataset_pairwise (cd : List PlaceRecord) (ci : List CityIDRecord) :
    (full_dataset cd ci).Pairwise (fun a b => b.pop_max ≤ a.pop_max) := by
  unfold full_dataset fulldataset sorted_cities
  exact List.Pairwise.filter _
    (merge_inner_pairwise (List.sorted_insertionSort popGE cd))

lemma find?_first_of_pairwise {α : Type} {R : α → α → Prop} {p : α → Bool} :
    ∀ {l : List α} {r : α}, l.Pairwise R → l.find? p = some r →
    ∀ x ∈ l, p x = true → x = r ∨ R r x := by
  intro l
  induction l with
  | nil => intro r _ hf; simp at hf
  | cons y t ih =>
    intro r hp hf x hx hpx
    by_cases hy : p y = true
    · rw [List.find?_cons_of_pos _ hy] at hf
      cases hf
      rcases List.mem_cons.mp hx with rfl | hxt
      · exact Or.inl rfl
      · exact Or.inr ((List.pairwise_cons.mp hp).1 x hxt)
    · rw [List.find?_cons_of_neg _ hy] at hf
      rcases List.mem_cons.mp hx with rfl | hxt
      · exact absurd hpx hy
      · exact ih hp.of_cons hf x hxt hpx

lemma mem_dedupFirst : ∀ {l : List JoinedRow} {seen : List String}
    {r : JoinedRow}, r ∈ dedupFirst l seen → r ∈ l
  | [], _, _, h => by simp [dedupFirst] at h
  | y :: t, seen, r, h => by
    rw [dedupFirst] at h
    by_cases hy : y.nameascii ∈ seen
    · rw [if_pos hy] at h
      exact List.mem_cons_of_mem _ (mem_dedupFirst h)
    · rw [if_neg hy] at h
      rcases List.mem_cons.mp h with rfl | h2
      · exact List.mem_cons_self _ _
      · exact List.mem_cons_of_mem _ (mem_dedupFirst h2)

lemma dedupFirst_find? : ∀ {l : List JoinedRow} {seen : List String}
    {r : JoinedRow}, r ∈ dedupFirst l seen →
    r.nameascii ∉ seen ∧
      l.find? (fun s => s.nameascii = r.nameascii) = some r
  | [], _, _, h => by simp [dedupFirst] at h
  | y :: t, seen, r, h => by
    rw [dedupFirst] at h
    by_cases hy : y.nameascii ∈ seen
    · rw [if_pos hy] at h
      obtain ⟨hn, hf⟩ := dedupFirst_find? h
      have hne : y.nameascii ≠ r.nameascii := fun he => hn (he ▸ hy)
      exact ⟨hn, by rw [List.find?_cons_of_neg _ (by simp [hne]), hf]⟩
    · rw [if_neg hy] at h
      rcases List.mem_cons.mp h with rfl | h2
      · exact ⟨hy, by rw [List.find?_cons_of_pos _ (by simp)]⟩
      · obtain ⟨hn, hf⟩ := dedupFirst_find? h2
        have hn_seen : r.nameascii ∉ seen :=
          fun hc => hn (List.mem_cons_of_mem _ hc)
        have hne : y.nameascii ≠ r.nameascii := fun he =>
          hn (by rw [← he]; exact List.mem_cons_self _ _)
        exact ⟨hn_seen, by rw [List.find?_cons_of_neg _ (by simp [hne]), hf]⟩

lemma find?_mem_dedupFirst : ∀ {l : List JoinedRow} {seen : List String}
    {k : String} {r : JoinedRow}, k ∉ seen →
    l.find? (fun s => s.nameascii = k) = some r → r ∈ dedupFirst l seen
  | [], _, _, _, _, hf => by simp at hf
  | y :: t, seen, k, r, hk, hf => by
    rw [dedupFirst]
    by_cases hy : y.nameascii = k
    · rw [List.find?_cons_of_pos _ (by simp [hy])] at hf
      cases hf
      rw [if_neg (by rw [hy]; exact hk)]
      exact List.mem_cons_self _ _
    · rw [List.find?_cons_of_neg _ (by simp [hy])] at hf
      by_cases hseen : y.nameascii ∈ seen
      · rw [if_pos hseen]
        exact find?_mem_dedupFirst hk hf
      · rw [if_neg hseen]
        have hk' : k ∉ y.nameascii :: seen := by
          intro hc
          rcases List.mem_cons.mp hc with he | he
          · exact hy he.symm
          · exact hk he
        exact List.mem_cons_of_mem _ (find?_mem_dedupFirst hk' hf)

lemma attach_length_le (sel : List JoinedRow) (cc : List (Option Int))
    (wd wm : List (Option String)) : (attach sel cc wd wm).length ≤ sel.length := by
  simp only [attach, List.length_map, List.length_zip]
  omega

lemma attach_row_mem {sel : List JoinedRow} {cc : List (Option Int)}
    {wd wm : List (Option String)} {s : SelRow}
    (h : s ∈ attach sel cc wd wm) : s.row ∈ sel := by
  obtain ⟨x, hx, hs⟩ := List.mem_map.mp h
  have := List.of_mem_zip hx
  rw [← hs]
  exact this.1

lemma sel_rows_length_le (cd : List PlaceRecord) (ci : List CityIDRecord)
    (n : Nat) : (sel_rows cd ci n).length ≤ n := by
  simp only [sel_rows, List.length_take]
  omega

lemma sel_rows_country (cd : List PlaceRecord) (ci : List CityIDRecord)
    (n : Nat) : ∀ r ∈ sel_rows cd ci n, r.iso_a2 = r.country := by
  intro r hr
  have h1 : r ∈ clear_dataset cd ci :=
    List.mem_of_mem_take (by simpa [sel_rows] using hr)
  have h2 : r ∈ full_dataset cd ci :=
    mem_dedupFirst (by simpa [clear_dataset] using h1)
  have h3 : r ∈ fulldataset cd ci ∧ r.iso_a2 = r.country := by
    simpa [full_dataset] using h2
  exact h3.2

lemma select_cities_full_ok {cd : List PlaceRecord} {ci : List CityIDRecord}
    {n : Nat} {http : Nat → Response} {final : List SelRow}
    {diags : List (Nat × Nat × String)}
    (h : select_cities_full cd ci n http = .ok (final, diags)) :
    ∃ res, get_weather http ((sel_rows cd ci n).map JoinedRow.id) = .ok res ∧
      final = (attach (sel_rows cd ci n) res.cloud_cov res.weath_desc
        res.weath_main).filter (fun r => r.weather = "Clear") ∧
      diags = res.diagnostics := by
  unfold select_cities_full at h
  dsimp only at h
  cases hw : get_weather http ((sel_rows cd ci n).map JoinedRow.id) with
  | error e => rw [hw] at h; exact absurd h (by simp)
  | ok res =>
    rw [hw] at h
    dsimp only at h
    cases h
    exact ⟨res, rfl, rfl, rfl⟩

/-! ### Concrete scenarios

Small closed instances of the input files and of the HTTP layer, used to
exercise the theorems on concrete data.  They follow the scenarios of the
specification: a single catalog entry "Paris"/"FR"/id 1 matching a single
place record. -/

/-- A single place record, as in the spec scenario. -/
def cdParis : List PlaceRecord := [⟨"Paris", "FR", 2000000⟩]

/-- A single catalog entry matching `cdParis`. -/
def ciParis : List CityIDRecord := [⟨"Paris", "FR", 1⟩]

/-- The joined row produced by `cdParis` and `ciParis`. -/
def parisRow : JoinedRow := ⟨"Paris", "FR", 2000000, "Paris", "FR", 1⟩

/-- A body reporting clear sky with 5% cloud cover. -/
def jsonClear : Json := ⟨some [⟨"Clear", "clear sky"⟩], some 5, some 1700000000⟩

/-- An HTTP layer answering every request with status 200 and `jsonClear`. -/
def httpClear : Nat → Response := fun _ => ⟨200, "body", some jsonClear⟩

/-- An HTTP layer where city 1 succeeds (dt 100) and every other city fails
with a 404 whose JSON body still carries a dt field (200). -/
def httpLastFail : Nat → Response := fun i =>
  if i = 1 then ⟨200, "ok", some ⟨some [⟨"Clear", "clear sky"⟩], some 5, some 100⟩⟩
  else ⟨404, "not found", some ⟨none, none, some 200⟩⟩

/-- An HTTP layer answering status 500 with a body that is not valid JSON. -/
def http500bad : Nat → Response := fun _ => ⟨500, "<html>err</html>", none⟩

/-- An HTTP layer answering status 500 with a JSON body carrying a dt field. -/
def http500dt : Nat → Response := fun _ => ⟨500, "err", some ⟨none, none, some 42⟩⟩

/-- Two place records with the same name and different populations. -/
def cdParisTwo : List PlaceRecord := [⟨"Paris", "FR", 100⟩, ⟨"Paris", "FR", 200⟩]

/-! ### Claims -/

/-- Claim C2: for every input ID sequence, when `get_weather` returns, each of
the three output sequences (cloud cover, description, main-category) has the
same length as the input ID sequence, and the entry at position i is the one
extracted from the response for the ID at position i. -/
theorem get_weather_alignment (http : Nat → Response) (ids : List Nat)
    (res : FetchResult) (h : get_weather http ids = .ok res) :
    res.cloud_cov.length = ids.length ∧
    res.weath_desc.length = ids.length ∧
    res.weath_main.length = ids.length ∧
    res.cloud_cov = ids.map (fun i => item_cloud (http i)) ∧
    res.weath_desc = ids.map (fun i => item_main (http i)) ∧
    res.weath_main = ids.map (fun i => item_main (http i)) := by
  obtain ⟨hcc, hwd, hwm, -⟩ := get_weather_ok_maps h
  exact ⟨by rw [hcc]; simp, by rw [hwd]; simp, by rw [hwm]; simp, hcc, hwd, hwm⟩

/-- Claim C2 witness: the alignment property evaluated on the one-city
clear-sky scenario. -/
theorem get_weather_alignment_witness :
    ([some (5 : Int)] : List (Option Int)).length = [1].length ∧
    ([some "Clear"] : List (Option String)).length = [1].length ∧
    ([some "Clear"] : List (Option String)).length = [1].length ∧
    ([some (5 : Int)] : List (Option Int)) =
      [1].map (fun i => item_cloud (httpClear i)) ∧
    ([some "Clear"] : List (Option String)) =
      [1].map (fun i => item_main (httpClear i)) ∧
    ([some "Clear"] : List (Option String)) =
      [1].map (fun i => item_main (httpClear i)) :=
  get_weather_alignment httpClear [1]
    ⟨[some 5], [some "Clear"], [some "Clear"], 1700000000, []⟩ rfl

/-- Claim C8: for every batch, when `get_weather` returns, the description
output sequence is elementwise equal to the main-category output sequence:
both are populated from `resp_j['weather'][0]['main']` on success and both
receive the absent marker on failure. -/
theorem description_equals_main_category (http : Nat → Response)
    (ids : List Nat) (res : FetchResult) (h : get_weather http ids = .ok res) :
    res.weath_desc = res.weath_main := by
  obtain ⟨-, hwd, hwm, -⟩ := get_weather_ok_maps h
  rw [hwd, hwm]

/-- Claim C8 witness: the description/main equality evaluated on a batch with
one success and one failure. -/
theorem description_equals_main_category_witness :
    ([some "Clear", none] : List (Option String)) = [some "Clear", none] :=
  description_equals_main_category httpLastFail [1, 2]
    ⟨[some 5, none], [some "Clear", none], [some "Clear", none], 200,
     [(2, 404, "not found")]⟩ rfl

/-- Claim C3 counterexample: a city ID whose response has a non-200 status
(500) but a body that is not valid JSON.  `response.json()` at line 93 raises
before the status check at line 95, so `get_weather` aborts the batch with the
parse error: no diagnostic is emitted, no absent markers are appended, and no
remaining ID would be processed — against the claim, which asserts all three
for every non-200 response. -/
theorem get_weather_failure_markers_counterexample :
    (http500bad 1).status_code ≠ 200 ∧
    get_weather http500bad [1] = .error (.jsonDecodeError 1) :=
  ⟨by decide, rfl⟩

/-- Claim C3 (amended): for every city ID at position i whose response has a
non-200 status and whose body parses as JSON, on a run of `get_weather` that
returns, a diagnostic carrying the city ID, status code and body is among the
printed diagnostics, the absent marker is at position i of all three output
sequences, and the remaining IDs were still processed (the outputs keep the
full input length, one entry per ID, each ID queried exactly once by
construction of the loop).  The parseable-body restriction is forced: on a
returning run the failing body necessarily parsed, stated here as the first
conjunct; a non-200 response with an unparseable body instead aborts the
batch, as the counterexample shows. -/
theorem get_weather_failure_markers_parsed (http : Nat → Response)
    (ids : List Nat) (res : FetchResult) (i : Nat)
    (h : get_weather http ids = .ok res) (hi : i < ids.length)
    (hfail : (http ids[i]).status_code ≠ 200) :
    (∃ j, (http ids[i]).json? = some j) ∧
    res.cloud_cov[i]? = some none ∧
    res.weath_desc[i]? = some none ∧
    res.weath_main[i]? = some none ∧
    (ids[i], (http ids[i]).status_code, (http ids[i]).text) ∈
      res.diagnostics ∧
    res.cloud_cov.length = ids.length := by
  obtain ⟨hcc, hwd, hwm, hdg⟩ := get_weather_ok_maps h
  have hnc : item_cloud (http ids[i]) = none := by simp [item_cloud, hfail]
  have hnm : item_main (http ids[i]) = none := by simp [item_main, hfail]
  refine ⟨?_, ?_, ?_, ?_, ?_, by rw [hcc]; simp⟩
  · obtain ⟨items, hlist, -⟩ := get_weather_ok_elim h
    obtain ⟨-, -, -, -, hjson⟩ := get_weather_list_ok_maps hlist
    have hgi := congrArg (fun l => l[i]?) hjson
    simp only [List.getElem?_map] at hgi
    rw [List.getElem?_eq_getElem hi] at hgi
    cases hii : items[i]? with
    | none => rw [hii] at hgi; simp at hgi
    | some it =>
      rw [hii] at hgi
      simp only [Option.map_some'] at hgi
      exact ⟨it.resp_j, (Option.some.inj hgi).symm⟩
  · rw [hcc, List.getElem?_map, List.getElem?_eq_getElem hi]
    simp [hnc]
  · rw [hwd, List.getElem?_map, List.getElem?_eq_getElem hi]
    simp [hnm]
  · rw [hwm, List.getElem?_map, List.getElem?_eq_getElem hi]
    simp [hnm]
  · rw [hdg]
    refine List.mem_filterMap.mpr ⟨ids[i], List.getElem_mem hi, ?_⟩
    simp [item_diag, hfail]

/-- Claim C3 (amended) witness: the failure-marker property evaluated at
position 1 of a two-city batch whose second request gets a 404 with a
parseable body. -/
theorem get_weather_failure_markers_parsed_witness :
    (∃ j, (httpLastFail ([1, 2] : List Nat)[1]).json? = some j) ∧
    ([some (5 : Int), none] : List (Option Int))[1]? = some none ∧
    ([some "Clear", none] : List (Option String))[1]? = some none ∧
    ([some "Clear", none] : List (Option String))[1]? = some none ∧
    (([1, 2] : List Nat)[1], (httpLastFail ([1, 2] : List Nat)[1]).status_code,
      (httpLastFail ([1, 2] : List Nat)[1]).text) ∈
      ([(2, 404, "not found")] : List (Nat × Nat × String)) ∧
    ([some (5 : Int), none] : List (Option Int)).length = [1, 2].length :=
  get_weather_failure_markers_parsed httpLastFail [1, 2]
    ⟨[some 5, none], [some "Clear", none], [some "Clear", none], 200,
     [(2, 404, "not found")]⟩ 1 rfl (by decide) (by decide)

/-- Claim C9: on an empty ID sequence, `get_weather` raises (the local
`resp_j` is read on the return line without ever being bound) instead of
returning a result, and the whole pipeline aborts with that error rather than
returning an empty table, shown here for an empty catalog, which makes the
selection and hence the ID list empty. -/
theorem get_weather_empty_input_fails (http : Nat → Response) :
    get_weather http [] = .error .nameError ∧
    ∀ (cd : List PlaceRecord) (n : Nat),
      select_cities cd [] n http = .error .nameError := by
  refine ⟨rfl, ?_⟩
  intro cd n
  have hm : ∀ l : List PlaceRecord, merge_inner l [] = [] := by
    intro l
    induction l with
    | nil => rfl
    | cons p ps ih => rw [merge_inner, ih]; rfl
  have hsel : sel_rows cd [] n = [] := by
    unfold sel_rows clear_dataset full_dataset fulldataset
    rw [hm]
    simp [dedupFirst]
  unfold select_cities select_cities_full
  dsimp only
  rw [hsel]
  rfl

/-- Claim C10: `get_weather` parses the body as JSON before inspecting the
status code, so a non-200 response whose body is not valid JSON raises and
aborts the whole batch instead of being recovered as a per-item failure. -/
theorem invalid_json_aborts_batch (http : Nat → Response) (ids : List Nat)
    (city_id : Nat) (hmem : city_id ∈ ids)
    (hjson : (http city_id).json? = none)
    ( _hfail : (http city_id).status_code ≠ 200) :
    ∃ e, get_weather http ids = .error e := by
  have hlist : ∃ e, get_weather_list http ids = .error e := by
    induction ids with
    | nil => simp at hmem
    | cons y t ih =>
      rcases List.mem_cons.mp hmem with rfl | hmt
      · refine ⟨.jsonDecodeError city_id, ?_⟩
        unfold get_weather_list process_city
        rw [hjson]
      · cases hp : process_city http y with
        | error e => exact ⟨e, by unfold get_weather_list; rw [hp]⟩
        | ok it =>
          obtain ⟨e, he⟩ := ih hmt
          refine ⟨e, ?_⟩
          unfold get_weather_list
          rw [hp]
          dsimp only
          rw [he]
  obtain ⟨e, he⟩ := hlist
  exact ⟨e, by unfold get_weather; rw [he]⟩

/-- Claim C10 witness: the abort evaluated on a one-city batch answered with a
500 whose body is not valid JSON. -/
theorem invalid_json_aborts_batch_witness :
    ∃ e, get_weather http500bad [1] = .error e :=
  invalid_json_aborts_batch http500bad [1] 1 (by decide) rfl (by decide)

/-- Claim C1: for every selection count n and every pair of input tables, when
`select_cities` returns, the returned table has at most n rows, every
underlying row of `final_dataset` has weather main-category exactly "Clear",
and the returned table is `final_dataset` projected to exactly the city-name
and cloud-cover columns. -/
theorem select_cities_at_most_n_clear_projected (cd : List PlaceRecord)
    (ci : List CityIDRecord) (n : Nat) (http : Nat → Response)
    (final : List SelRow) (diags : List (Nat × Nat × String))
    (h : select_cities_full cd ci n http = .ok (final, diags)) :
    final.length ≤ n ∧ (∀ r ∈ final, r.weather = "Clear") ∧
    select_cities cd ci n http =
      .ok (final.map (fun r => (r.row.nameascii, r.clouds))) := by
  obtain ⟨res, hw, hfin, -⟩ := select_cities_full_ok h
  refine ⟨?_, ?_, ?_⟩
  · rw [hfin]
    calc ((attach (sel_rows cd ci n) res.cloud_cov res.weath_desc
            res.weath_main).filter (fun r => r.weather = "Clear")).length
        ≤ (attach (sel_rows cd ci n) res.cloud_cov res.weath_desc
            res.weath_main).length := List.length_filter_le _ _
      _ ≤ (sel_rows cd ci n).length := attach_length_le _ _ _ _
      _ ≤ n := sel_rows_length_le cd ci n
  · intro r hr
    rw [hfin] at hr
    exact of_decide_eq_true (List.mem_filter.mp hr).2
  · unfold select_cities
    rw [h]

/-- Claim C1 witness: the bound, the clear-sky property and the projection
evaluated on the one-city clear-sky scenario. -/
theorem select_cities_at_most_n_clear_projected_witness :
    ([⟨parisRow, "Clear", "Clear", Cell.intVal 5⟩] : List SelRow).length ≤ 1 ∧
    (∀ r ∈ ([⟨parisRow, "Clear", "Clear", Cell.intVal 5⟩] : List SelRow),
      r.weather = "Clear") ∧
    select_cities cdParis ciParis 1 httpClear =
      .ok (([⟨parisRow, "Clear", "Clear", Cell.intVal 5⟩] : List SelRow).map
        (fun r => (r.row.nameascii, r.clouds))) :=
  select_cities_at_most_n_clear_projected cdParis ciParis 1 httpClear
    [⟨parisRow, "Clear", "Clear", Cell.intVal 5⟩] [] rfl

/-- Claim C4 counterexample: a batch of two cities where the first request
succeeds with dt 100 and the second (last) request fails with a 404 whose JSON
body carries dt 200.  `resp_j` is reassigned on every iteration, so the
returned timestamp is 200, the dt of the failed last response, not 100, the dt
of the previous successful response as the claim states. -/
theorem get_weather_last_failure_dt_counterexample :
    get_weather httpLastFail [1, 2] =
      .ok ⟨[some 5, none], [some "Clear", none], [some "Clear", none], 200,
           [(2, 404, "not found")]⟩ ∧
    (httpLastFail 1).status_code = 200 ∧
    (httpLastFail 1).json? =
      some ⟨some [⟨"Clear", "clear sky"⟩], some 5, some 100⟩ ∧
    (httpLastFail 2).status_code ≠ 200 ∧
    (200 : Int) ≠ 100 :=
  ⟨rfl, rfl, rfl, by decide, by decide⟩

/-- Claim C4 amended: for every batch whose last request fails (non-200), when
`get_weather` returns at all, the returned timestamp is the `dt` field of the
JSON body of that last, failed response (not the dt of the previous successful
response); when that body has no `dt` field or is not valid JSON, the call
raises instead of returning. -/
theorem get_weather_dt_from_last_response (http : Nat → Response)
    (ids : List Nat) (l : Nat) (res : FetchResult)
    (hl : ids.getLast? = some l) (h : get_weather http ids = .ok res)
    ( _hfail : (http l).status_code ≠ 200) :
    (http l).json?.bind Json.dt = some res.dt := by
  obtain ⟨items, hlist, -, -, -, -, j, hg, hdt⟩ := get_weather_ok_elim h
  obtain ⟨-, -, -, -, hjson⟩ := get_weather_list_ok_maps hlist
  have h1 := congrArg List.getLast? hjson
  rw [List.getLast?_map, List.getLast?_map, hl] at h1
  rw [List.getLast?_map] at hg
  cases hgl : items.getLast? with
  | none => rw [hgl] at hg; simp at hg
  | some itl =>
    rw [hgl] at hg h1
    simp only [Option.map_some'] at hg h1
    have h2 : (http l).json? = some itl.resp_j := (Option.some.inj h1).symm
    rw [h2, Option.some_bind, Option.some.inj hg, hdt]

/-- Claim C4 amended witness: the amended timestamp property evaluated on the
two-city batch whose last request fails with a dt-carrying body. -/
theorem get_weather_dt_from_last_response_witness :
    (httpLastFail 2).json?.bind Json.dt = some (200 : Int) :=
  get_weather_dt_from_last_response httpLastFail [1, 2] 2
    ⟨[some 5, none], [some "Clear", none], [some "Clear", none], 200,
     [(2, 404, "not found")]⟩ rfl rfl (by decide)

/-- Claim C6: for every input and every selection count, every row of the
selection satisfies the country-code equality, and so does the underlying
joined row of every row of any returned output of `select_cities`: a joined
row whose place country code differs from the catalog country code never
appears. -/
theorem country_code_mismatch_never_output (cd : List PlaceRecord)
    (ci : List CityIDRecord) (n : Nat) (http : Nat → Response) :
    (∀ r ∈ sel_rows cd ci n, r.iso_a2 = r.country) ∧
    (∀ final diags, select_cities_full cd ci n http = .ok (final, diags) →
      ∀ s ∈ final, s.row.iso_a2 = s.row.country) := by
  refine ⟨sel_rows_country cd ci n, ?_⟩
  intro final diags h s hs
  obtain ⟨res, -, hfin, -⟩ := select_cities_full_ok h
  rw [hfin] at hs
  exact sel_rows_country cd ci n _ (attach_row_mem (List.mem_filter.mp hs).1)

/-- Claim C6 witness: the country-code invariant evaluated on the one-city
clear-sky scenario, discharging both membership hypotheses concretely. -/
theorem country_code_mismatch_never_output_witness :
    parisRow.iso_a2 = parisRow.country ∧
    (⟨parisRow, "Clear", "Clear", Cell.intVal 5⟩ : SelRow).row.iso_a2 =
      (⟨parisRow, "Clear", "Clear", Cell.intVal 5⟩ : SelRow).row.country :=
  ⟨(country_code_mismatch_never_output cdParis ciParis 1 httpClear).1
      parisRow (by decide),
   (country_code_mismatch_never_output cdParis ciParis 1 httpClear).2
      [⟨parisRow, "Clear", "Clear", Cell.intVal 5⟩] [] rfl
      ⟨parisRow, "Clear", "Clear", Cell.intVal 5⟩ (by decide)⟩

/-- Claim C5: for two place records with the same ascii name and different
populations whose joined rows both survive the country-code filter (and whose
population values are the only ones occurring under that name there),
deduplication keeps exactly a row of the higher-population record and drops
every row of the lower-population one. -/
theorem dedup_keeps_higher_population (cd : List PlaceRecord)
    (ci : List CityIDRecord) (p1 p2 : PlaceRecord)
    ( _hname : p1.nameascii = p2.nameascii)
    (hpop : p2.pop_max < p1.pop_max)
    (h1 : ∃ r ∈ full_dataset cd ci,
      r.nameascii = p1.nameascii ∧ r.pop_max = p1.pop_max)
    ( _h2 : ∃ r ∈ full_dataset cd ci,
      r.nameascii = p1.nameascii ∧ r.pop_max = p2.pop_max)
    (honly : ∀ r ∈ full_dataset cd ci, r.nameascii = p1.nameascii →
      r.pop_max = p1.pop_max ∨ r.pop_max = p2.pop_max) :
    (∃ r ∈ clear_dataset cd ci,
      r.nameascii = p1.nameascii ∧ r.pop_max = p1.pop_max) ∧
    (∀ r ∈ clear_dataset cd ci, r.nameascii = p1.nameascii →
      r.pop_max ≠ p2.pop_max) := by
  obtain ⟨a, ha_mem, ha_key, ha_pop⟩ := h1
  have hsome :
      ((full_dataset cd ci).find?
        (fun s => s.nameascii = p1.nameascii)).isSome :=
    List.find?_isSome.mpr ⟨a, ha_mem, by simp [ha_key]⟩
  obtain ⟨r0, hf⟩ := Option.isSome_iff_exists.mp hsome
  have hr0_mem : r0 ∈ full_dataset cd ci := List.mem_of_find?_eq_some hf
  have hr0_key : r0.nameascii = p1.nameascii := by
    have := List.find?_some hf
    simpa using this
  have hr0_pop : r0.pop_max = p1.pop_max := by
    rcases honly r0 hr0_mem hr0_key with hh | hh
    · exact hh
    · exfalso
      rcases find?_first_of_pairwise (full_dataset_pairwise cd ci) hf a ha_mem
          (by simp [ha_key]) with rfl | hle
      · exact hpop.ne' (ha_pop.symm.trans hh)
      · rw [ha_pop, hh] at hle
        exact absurd hle (not_le.mpr hpop)
  constructor
  · refine ⟨r0, ?_, hr0_key, hr0_pop⟩
    unfold clear_dataset
    exact find?_mem_dedupFirst (List.not_mem_nil _) hf
  · intro r hr hkey
    have hfind := (dedupFirst_find? (by simpa [clear_dataset] using hr)).2
    rw [hkey] at hfind
    have hr_eq : r = r0 := by
      rw [hfind] at hf
      exact Option.some.inj hf
    rw [hr_eq, hr0_pop]
    exact hpop.ne'

/-- Claim C5 witness: two same-name records with populations 200 and 100, one
catalog entry; the kept row carries population 200 and no kept row carries
100. -/
theorem dedup_keeps_higher_population_witness :
    (∃ r ∈ clear_dataset cdParisTwo ciParis,
      r.nameascii = "Paris" ∧ r.pop_max = (200 : Int)) ∧
    (∀ r ∈ clear_dataset cdParisTwo ciParis, r.nameascii = "Paris" →
      r.pop_max ≠ (100 : Int)) :=
  dedup_keeps_higher_population cdParisTwo ciParis
    ⟨"Paris", "FR", 200⟩ ⟨"Paris", "FR", 100⟩ rfl (by decide)
    (by decide) (by decide) (by decide)

/-- Claim C7 counterexample: one candidate city whose response has status 500
and a body that is not valid JSON.  `response.json()` raises before the status
check, so `select_cities` aborts with that error: no empty table is returned
and no diagnostic is printed, against the claim. -/
theorem select_cities_500_counterexample :
    sel_rows cdParis ciParis 1 = [parisRow] ∧
    (http500bad parisRow.id).status_code = 500 ∧
    select_cities cdParis ciParis 1 http500bad =
      .error (.jsonDecodeError 1) :=
  ⟨rfl, rfl, rfl⟩

/-- Claim C7 amended: when exactly one candidate city survives selection and
its response has a non-200 status with a body that parses as JSON and carries
a `dt` field, `select_cities` returns an empty table and a diagnostic with the
city ID, status code and body has been emitted; when the body is not valid
JSON or lacks `dt`, the call raises instead. -/
theorem select_cities_500_with_dt_empty (cd : List PlaceRecord)
    (ci : List CityIDRecord) (n : Nat) (http : Nat → Response)
    (r : JoinedRow) (j : Json) (d : Int)
    (hsel : sel_rows cd ci n = [r])
    (hfail : (http r.id).status_code ≠ 200)
    (hjson : (http r.id).json? = some j)
    (hdt : j.dt = some d) :
    select_cities_full cd ci n http =
      .ok ([], [(r.id, (http r.id).status_code, (http r.id).text)]) ∧
    select_cities cd ci n http = .ok [] := by
  have hw : get_weather http [r.id] =
      .ok ⟨[none], [none], [none], d,
           [(r.id, (http r.id).status_code, (http r.id).text)]⟩ := by
    simp [get_weather, get_weather_list, process_city, hjson, hfail, hdt]
  have hfull : select_cities_full cd ci n http =
      .ok ([], [(r.id, (http r.id).status_code, (http r.id).text)]) := by
    unfold select_cities_full
    dsimp only
    rw [hsel]
    dsimp only [List.map_cons, List.map_nil]
    rw [hw]
    dsimp only
    simp [attach, fillna_str, fillna_cell]
  refine ⟨hfull, ?_⟩
  unfold select_cities
  rw [hfull]
  rfl

/-- Claim C7 amended witness: the amended property evaluated on the one-city
scenario answered with a 500 whose JSON body carries dt 42. -/
theorem select_cities_500_with_dt_empty_witness :
    select_cities_full cdParis ciParis 1 http500dt =
      .ok ([], [(parisRow.id, (http500dt parisRow.id).status_code,
                 (http500dt parisRow.id).text)]) ∧
    select_cities cdParis ciParis 1 http500dt = .ok [] :=
  select_cities_500_with_dt_empty cdParis ciParis 1 http500dt parisRow
    ⟨none, none, some 42⟩ 42 rfl (by decide) rfl rfl

end CitiesWeather
